import Mathlib

/-!
Verification of the client utility layer of the ticket-app repository
(`src/client/src/utils.js`): the descending pagination planner
`descPagination` and the error classifier `ErrorHandler` /
`toErrorHandler`, embedded shallowly over `Int` and `String`.
-/

namespace TicketApp

/-- Output of `descPagination`: the page window record
`{ maxId, minId, hasPrev, hasNext }`. -/
structure PageWindow where
  maxId : Int
  minId : Int
  hasPrev : Bool
  hasNext : Bool
deriving DecidableEq, Repr

/-- Embedding of `descPagination(total, page, perPage, zeroBased)` from
`src/client/src/utils.js` lines 179-191.  The JS reassignment
`total = zeroBased ? (total - 1) : total` is mirrored by the shadowing
`let`; all arithmetic is exact integer arithmetic. -/
def descPagination (total page perPage : Int) (zeroBased : Bool) : PageWindow :=
  let total := if zeroBased then total - 1 else total
  let maxId := total - (page - 1) * perPage
  let min : Int := if zeroBased then -1 else 0
  let minId := if maxId - perPage < min then min else maxId - perPage
  { maxId := maxId
    minId := minId
    hasPrev := decide (maxId < total)
    hasNext := decide (minId > min) }

/-- The window described by the specification's own formulas (section 4.1):
`effectiveTotal`, `maxId`, `floor`, `minId = max (maxId - perPage) floor`,
`hasPrev = maxId < effectiveTotal`, `hasNext = minId > floor`.  Written from
the spec's words, to be compared with `descPagination`. -/
def specPlan (total page perPage : Int) (zeroBased : Bool) : PageWindow :=
  let effectiveTotal := if zeroBased then total - 1 else total
  let maxId := effectiveTotal - (page - 1) * perPage
  let floor : Int := if zeroBased then -1 else 0
  let minId := max (maxId - perPage) floor
  { maxId := maxId
    minId := minId
    hasPrev := decide (maxId < effectiveTotal)
    hasNext := decide (minId > floor) }

/-- The sentinel floor: `-1` when zero-based, `0` otherwise. -/
def floorOf (zeroBased : Bool) : Int := if zeroBased then -1 else 0

lemma ite_min_eq_max (x m : Int) : (if x < m then m else x) = max x m := by
  rcases lt_or_le x m with h | h
  · simp [h, max_eq_right h.le]
  · simp [not_lt.mpr h, max_eq_left h]

/-- C1: for every integer `total`, `page`, `perPage` and boolean `zeroBased`,
`descPagination` returns exactly the window computed by the spec's formulas:
`maxId = effectiveTotal - (page - 1) * perPage`,
`minId = max (maxId - perPage) floor`, `hasPrev = maxId < effectiveTotal`,
`hasNext = minId > floor`. -/
theorem descPagination_eq_specPlan (total page perPage : Int) (zeroBased : Bool) :
    descPagination total page perPage zeroBased = specPlan total page perPage zeroBased := by
  cases zeroBased <;>
    simp only [descPagination, specPlan, ite_min_eq_max, Bool.false_eq_true,
      if_false, if_true]

/-- An error record: the `(displayError, log, message)` triple exposed by the
`ErrorHandler` getters. -/
structure ErrorRecord where
  displayError : Bool
  log : Bool
  message : String
deriving DecidableEq, Repr

/-- Boolean test that the list `p` is a leading segment of the list `s`. -/
def leadsList : List Char → List Char → Bool
  | [], _ => true
  | _ :: _, [] => false
  | p :: ps, s :: ss => p == s && leadsList ps ss

/-- Boolean test that the list `p` occurs as a contiguous segment of `s`. -/
def occursIn (p : List Char) : List Char → Bool
  | [] => leadsList p []
  | s :: ss => leadsList p (s :: ss) || occursIn p ss

/-- Embedding of the JavaScript `message.includes(err)` substring test:
`strIncludes s p` is true iff `p` occurs as a contiguous substring of `s`. -/
def strIncludes (s p : String) : Bool := occursIn p.data s.data

/-- Embedding of the `ERRORS` table of `src/client/src/utils.js` lines 4-35:
an ordered association list from substring key to record, in the declared key
order of the JS object literal. -/
def ERRORS : List (String × ErrorRecord) :=
  [ ("You have no Metamask installed",
      { displayError := true, log := false, message := "You have no Metamask installed." }),
    ("You are connected to the wrong network",
      { displayError := true, log := false, message := "You are connected to the wrong network." }),
    ("User rejected the request",
      { displayError := true, log := false, message := "You rejected the connect request." }),
    ("User denied transaction signature",
      { displayError := false, log := false,
        message := "MetaMask Tx Signature: User denied transaction signature." }),
    ("Loketh: Organizer can not buy their own event",
      { displayError := true, log := false,
        message := "You can not buy a ticket from your own event." }),
    ("Loketh: Participant already bought the ticket",
      { displayError := true, log := false, message := "You are already buy this ticket." }) ]

/-- The values a caught JavaScript error can take, as the constructor of
`ErrorHandler` discriminates them: a native `Error` (with its message), a
plain object whose `message` field is either absent or a string, a raw
string, `null`, `undefined`, an integer number, or a boolean. -/
inductive JsError where
  | errObj (message : String)
  | plainObj (message : Option String)
  | strVal (s : String)
  | nullVal
  | undefVal
  | numVal (n : Int)
  | boolVal (b : Bool)
deriving DecidableEq, Repr

/-- The message string `this.error.message` computed by the `ErrorHandler`
constructor (lines 38-45), or a thrown `TypeError`.  `error instanceof Error`
keeps the message; a non-null object with a truthy `message` field wraps that
message; everything else is coerced by `new Error(value)` to its JavaScript
string representation.  `null` has `typeof null === 'object'`, so the
constructor reads `null.message` and throws a `TypeError`. -/
def normalizeError : JsError → Except String String
  | .errObj m => .ok m
  | .plainObj (some m) => if m = "" then .ok "[object Object]" else .ok m
  | .plainObj none => .ok "[object Object]"
  | .strVal s => .ok s
  | .nullVal => .error "TypeError: Cannot read property of null"
  | .undefVal => .ok ""
  | .numVal n => .ok (toString n)
  | .boolVal b => .ok (if b then "true" else "false")

/-- The table lookup of the constructor (lines 47-51):
`Object.keys(ERRORS).find(err => this.error.message.includes(err))`, giving
`this._error` (the matched record, or `none`). -/
def errorLookup (msg : String) : Option ErrorRecord :=
  (ERRORS.find? fun p => strIncludes msg p.fst).map Prod.snd

/-- The state of a constructed `ErrorHandler`: the normalized message
`this.error.message` and the matched table entry `this._error`. -/
structure ErrorHandler where
  errMessage : String
  matched : Option ErrorRecord
deriving DecidableEq, Repr

/-- The `displayError` getter (lines 54-56). -/
def ErrorHandler.displayError (h : ErrorHandler) : Bool :=
  match h.matched with
  | some r => r.displayError
  | none => true

/-- The `log` getter (lines 58-60). -/
def ErrorHandler.log (h : ErrorHandler) : Bool :=
  match h.matched with
  | some r => r.log
  | none => true

/-- The `message` getter (lines 62-64). -/
def ErrorHandler.message (h : ErrorHandler) : String :=
  match h.matched with
  | some r => r.message
  | none => "Something went wrong."

/-- The record read off a constructed handler through its three getters. -/
def ErrorHandler.record (h : ErrorHandler) : ErrorRecord :=
  { displayError := h.displayError, log := h.log, message := h.message }

/-- Embedding of `toErrorHandler(error)` / `new ErrorHandler(error)`:
normalize the input to a message (this step can throw on `null`) and look it
up in the table. -/
def toErrorHandler (e : JsError) : Except String ErrorHandler :=
  (normalizeError e).map fun msg => { errMessage := msg, matched := errorLookup msg }

/-- Classification of an already-normalized message: the record the three
getters expose for a handler whose `this.error.message` is `msg`. -/
def classify (msg : String) : ErrorRecord :=
  ErrorHandler.record { errMessage := msg, matched := errorLookup msg }

/-- The default record returned when no table entry matches. -/
def defaultRecord : ErrorRecord :=
  { displayError := true, log := true, message := "Something went wrong." }

/-- The spec's fixed signature table (section 4.2), written from the spec's
own six rows, to be compared with the code's `ERRORS` table. -/
def specTable : List (String × ErrorRecord) :=
  [ ("You have no Metamask installed",
      { displayError := true, log := false, message := "You have no Metamask installed." }),
    ("You are connected to the wrong network",
      { displayError := true, log := false, message := "You are connected to the wrong network." }),
    ("User rejected the request",
      { displayError := true, log := false, message := "You rejected the connect request." }),
    ("User denied transaction signature",
      { displayError := false, log := false,
        message := "MetaMask Tx Signature: User denied transaction signature." }),
    ("Loketh: Organizer can not buy their own event",
      { displayError := true, log := false,
        message := "You can not buy a ticket from your own event." }),
    ("Loketh: Participant already bought the ticket",
      { displayError := true, log := false, message := "You are already buy this ticket." }) ]

/-- C4 counterexample: with `total = 0`, `page = 2`, `perPage = 1`,
`zeroBased = true` (all preconditions of the claim satisfied), the window has
`maxId = -2 < minId = -1`, so the claimed invariant `maxId >= minId` fails. -/
theorem descPagination_maxId_ge_minId_cex :
    (0 : Int) ≥ 0 ∧ (2 : Int) ≥ 1 ∧ (1 : Int) ≥ 1 ∧
      ¬ (descPagination 0 2 1 true).maxId ≥ (descPagination 0 2 1 true).minId := by
  refine ⟨by decide, by decide, by decide, ?_⟩
  decide

/-- C4, amended: for `total ≥ 0`, `page ≥ 1`, `perPage ≥ 1`, whenever the
computed `maxId` has not dropped below the sentinel floor (the page is not
beyond the end of the collection), the window satisfies `maxId ≥ minId`. -/
theorem descPagination_maxId_ge_minId (total page perPage : Int) (zeroBased : Bool)
    (htotal : total ≥ 0) (hpage : page ≥ 1) (hper : perPage ≥ 1)
    (hfloor : (descPagination total page perPage zeroBased).maxId ≥ floorOf zeroBased) :
    (descPagination total page perPage zeroBased).maxId ≥
      (descPagination total page perPage zeroBased).minId := by
  cases zeroBased <;>
    simp only [descPagination, floorOf, if_true, if_false, Bool.false_eq_true] at * <;>
    split at * <;> omega

/-- Witness for the amended C4 at `total = 25`, `page = 1`, `perPage = 10`,
`zeroBased = true`: the window is `maxId = 24`, `minId = 14`. -/
theorem descPagination_maxId_ge_minId_witness :
    (descPagination 25 1 10 true).maxId ≥ (descPagination 25 1 10 true).minId :=
  descPagination_maxId_ge_minId 25 1 10 true (by decide) (by decide) (by decide) (by decide)

/-- C6: for `total ≥ 0`, `page ≥ 1`, `perPage ≥ 1` and either base, the window
satisfies `hasNext = false` iff `minId` equals the sentinel floor (`-1` when
zero-based, `0` otherwise). -/
theorem descPagination_hasNext_false_iff (total page perPage : Int) (zeroBased : Bool)
    (htotal : total ≥ 0) (hpage : page ≥ 1) (hper : perPage ≥ 1) :
    (descPagination total page perPage zeroBased).hasNext = false ↔
      (descPagination total page perPage zeroBased).minId = floorOf zeroBased := by
  cases zeroBased <;>
    simp only [descPagination, floorOf, if_true, if_false, Bool.false_eq_true,
      decide_eq_false_iff_not, not_lt] <;>
    split <;> omega

/-- Witness for C6 at `total = 25`, `page = 3`, `perPage = 10`,
`zeroBased = true`: there `minId = -1 = floor`, hence `hasNext = false`. -/
theorem descPagination_hasNext_false_iff_witness :
    (descPagination 25 3 10 true).hasNext = false :=
  (descPagination_hasNext_false_iff 25 3 10 true (by decide) (by decide) (by decide)).mpr
    (by decide)

/-- C7: monotonicity — for every `total`, `perPage`, `zeroBased` and every
`page ≥ 1`, increasing `page` by one decreases `maxId` by exactly `perPage`. -/
theorem descPagination_maxId_step (total perPage : Int) (zeroBased : Bool) (page : Int)
    (hpage : page ≥ 1) :
    (descPagination total (page + 1) perPage zeroBased).maxId =
      (descPagination total page perPage zeroBased).maxId - perPage := by
  cases zeroBased <;> simp only [descPagination, if_true, if_false, Bool.false_eq_true] <;> ring

/-- Witness for C7 at `total = 25`, `perPage = 10`, `zeroBased = true`,
`page = 1`: `maxId` drops from `24` to `14`. -/
theorem descPagination_maxId_step_witness :
    (descPagination 25 (1 + 1) 10 true).maxId = (descPagination 25 1 10 true).maxId - 10 :=
  descPagination_maxId_step 25 10 true 1 (by decide)

/-- C9: for all integer inputs and either base, the window satisfies
`minId ≥ floor` and `maxId - minId ≤ perPage`. -/
theorem descPagination_minId_bounds (total page perPage : Int) (zeroBased : Bool) :
    (descPagination total page perPage zeroBased).minId ≥ floorOf zeroBased ∧
      (descPagination total page perPage zeroBased).maxId -
        (descPagination total page perPage zeroBased).minId ≤ perPage := by
  cases zeroBased <;>
    simp only [descPagination, floorOf, if_true, if_false, Bool.false_eq_true] <;>
    split <;> omega

/-- C10: for every `perPage ≥ 1`, an empty zero-based collection on page one
yields the empty window `{ maxId := -1, minId := -1, hasPrev := false,
hasNext := false }`. -/
theorem descPagination_empty_collection (perPage : Int) (hper : perPage ≥ 1) :
    descPagination 0 1 perPage true =
      { maxId := -1, minId := -1, hasPrev := false, hasNext := false } := by
  simp only [descPagination, if_true]
  have h1 : (0 : Int) - 1 - (1 - 1) * perPage = -1 := by ring
  rw [h1]
  have h2 : (-1 : Int) - perPage < -1 := by omega
  simp [h2]

/-- Witness for C10 at `perPage = 10`. -/
theorem descPagination_empty_collection_witness :
    descPagination 0 1 10 true =
      { maxId := -1, minId := -1, hasPrev := false, hasNext := false } :=
  descPagination_empty_collection 10 (by decide)

lemma errors_log_false : ∀ q ∈ ERRORS, q.snd.log = false := by decide

lemma errors_message_ne : ∀ q ∈ ERRORS, q.snd.message ≠ "" := by decide

lemma find?_none_iff_all_not (msg : String) :
    (ERRORS.find? fun p => strIncludes msg p.fst) = none ↔
      (ERRORS.all fun p => ! strIncludes msg p.fst) = true := by
  rw [List.find?_eq_none, List.all_eq_true]
  constructor
  · intro h x hx
    simpa using h x hx
  · intro h x hx
    simpa using h x hx

/-- C2: the code's table equals the spec's fixed table, and on any message
containing at least one of the six patterns (substring containment), the
classifier yields exactly the record of the first matching entry in declared
table order. -/
theorem classify_first_match (msg : String)
    (h : (specTable.any fun p => strIncludes msg p.fst) = true) :
    ERRORS = specTable ∧
      some (classify msg) = (specTable.find? fun p => strIncludes msg p.fst).map Prod.snd := by
  refine ⟨rfl, ?_⟩
  have hs : (specTable.find? fun p => strIncludes msg p.fst).isSome := by
    rw [List.find?_isSome]
    obtain ⟨p, hp, hm⟩ := List.any_eq_true.mp h
    exact ⟨p, hp, hm⟩
  obtain ⟨p, hp⟩ := Option.isSome_iff_exists.mp hs
  have hE : (ERRORS.find? fun p => strIncludes msg p.fst) = some p := hp
  simp only [classify, errorLookup, ErrorHandler.record, ErrorHandler.displayError,
    ErrorHandler.log, ErrorHandler.message, hE, hp, Option.map]

/-- Witness for C2 on a message containing the third pattern. -/
theorem classify_first_match_witness :
    ERRORS = specTable ∧
      some (classify "Error: User rejected the request today") =
        ((specTable.find? fun p =>
            strIncludes "Error: User rejected the request today" p.fst).map Prod.snd) :=
  classify_first_match "Error: User rejected the request today" (by decide)

/-- C3 counterexample: constructing the handler on the JavaScript value
`null` throws (`typeof null === 'object'`, so the constructor reads
`null.message` and raises a `TypeError`); classification does not yield a
record. -/
theorem toErrorHandler_null_throws :
    toErrorHandler JsError.nullVal =
      Except.error "TypeError: Cannot read property of null" := rfl

/-- C3, amended: for every input other than `null` — a native `Error`, an
object with or without a message field, a raw string, `undefined`, a number
or a boolean — construction terminates normally and yields a handler (hence
a well-formed record). -/
theorem toErrorHandler_total (e : JsError) (h : e ≠ JsError.nullVal) :
    ∃ hdl, toErrorHandler e = Except.ok hdl := by
  cases e with
  | errObj m => exact ⟨_, rfl⟩
  | plainObj o =>
      cases o with
      | none => exact ⟨_, rfl⟩
      | some m =>
          by_cases hm : m = ""
          · exact ⟨{ errMessage := "[object Object]", matched := errorLookup "[object Object]" },
              by simp [toErrorHandler, normalizeError, hm, Except.map]⟩
          · exact ⟨{ errMessage := m, matched := errorLookup m },
              by simp [toErrorHandler, normalizeError, hm, Except.map]⟩
  | strVal s => exact ⟨_, rfl⟩
  | nullVal => exact absurd rfl h
  | undefVal => exact ⟨_, rfl⟩
  | numVal n => exact ⟨_, rfl⟩
  | boolVal b => exact ⟨_, rfl⟩

/-- Witness for the amended C3 at the raw string input `"timeout"`. -/
theorem toErrorHandler_total_witness :
    ∃ hdl, toErrorHandler (JsError.strVal "timeout") = Except.ok hdl :=
  toErrorHandler_total (JsError.strVal "timeout") (by decide)

/-- C5: on a message matching none of the six patterns the classifier yields
the default record `{ displayError := true, log := true,
message := "Something went wrong." }`, and for every message the `log` flag
is true iff no table pattern occurs in it. -/
theorem classify_default (msg : String) :
    ((ERRORS.all fun p => ! strIncludes msg p.fst) = true →
        classify msg = defaultRecord) ∧
      ((classify msg).log = true ↔ (ERRORS.all fun p => ! strIncludes msg p.fst) = true) := by
  rcases hfind : ERRORS.find? fun p => strIncludes msg p.fst with _ | p
  · have hall := (find?_none_iff_all_not msg).mp hfind
    have hrec : classify msg = defaultRecord := by
      simp [classify, errorLookup, ErrorHandler.record, ErrorHandler.displayError,
        ErrorHandler.log, ErrorHandler.message, hfind, defaultRecord]
    exact ⟨fun _ => hrec, by simp [hrec, defaultRecord, hall]⟩
  · have hmem : p ∈ ERRORS := List.mem_of_find?_eq_some hfind
    have hnall : ¬ (ERRORS.all fun q => ! strIncludes msg q.fst) = true := by
      intro hall
      rw [← find?_none_iff_all_not] at hall
      simp [hfind] at hall
    have hlog : (classify msg).log = false := by
      simp [classify, errorLookup, ErrorHandler.record, ErrorHandler.log, hfind,
        errors_log_false p hmem]
    refine ⟨fun hall => absurd hall hnall, ?_⟩
    rw [hlog]
    simp only [Bool.false_eq_true, false_iff]
    exact hnall

/-- Witness for C5 on the unmatched message `"timeout"`. -/
theorem classify_default_witness :
    classify "timeout" = defaultRecord :=
  (classify_default "timeout").1 (by decide)

/-- C8: whenever construction terminates, the record read through the three
getters is one of seven fixed constants — the default record or one of the
six table templates — its message is non-empty, and every non-default record
has `log = false`. -/
theorem classify_range (e : JsError) (hdl : ErrorHandler)
    (h : toErrorHandler e = Except.ok hdl) :
    hdl.record ∈ defaultRecord :: ERRORS.map Prod.snd ∧
      hdl.record.message ≠ "" ∧
      (hdl.record ≠ defaultRecord → hdl.record.log = false) := by
  rcases hnorm : normalizeError e with err | msg
  · rw [toErrorHandler, hnorm] at h
    exact absurd h (by simp [Except.map])
  · rw [toErrorHandler, hnorm] at h
    simp only [Except.map, Except.ok.injEq] at h
    subst h
    rcases hfind : ERRORS.find? fun p => strIncludes msg p.fst with _ | p
    · have hm : errorLookup msg = none := by rw [errorLookup, hfind]; rfl
      have hrec : ({ errMessage := msg, matched := errorLookup msg } : ErrorHandler).record =
          defaultRecord := by
        simp [ErrorHandler.record, ErrorHandler.displayError, ErrorHandler.log,
          ErrorHandler.message, hm, defaultRecord]
      rw [hrec]
      refine ⟨List.mem_cons_self _ _, by decide, fun hne => absurd rfl hne⟩
    · have hm : errorLookup msg = some p.snd := by rw [errorLookup, hfind]; rfl
      have hmem : p ∈ ERRORS := List.mem_of_find?_eq_some hfind
      have hrec : ({ errMessage := msg, matched := errorLookup msg } : ErrorHandler).record =
          p.snd := by
        simp [ErrorHandler.record, ErrorHandler.displayError, ErrorHandler.log,
          ErrorHandler.message, hm]
      rw [hrec]
      exact ⟨List.mem_cons_of_mem _ (List.mem_map_of_mem Prod.snd hmem),
        errors_message_ne p hmem, fun _ => errors_log_false p hmem⟩

/-- Witness for C8 at the raw string input `"boom"`, whose handler matches no
table entry. -/
theorem classify_range_witness :
    ({ errMessage := "boom", matched := none } : ErrorHandler).record ∈
        defaultRecord :: ERRORS.map Prod.snd ∧
      ({ errMessage := "boom", matched := none } : ErrorHandler).record.message ≠ "" ∧
      (({ errMessage := "boom", matched := none } : ErrorHandler).record ≠ defaultRecord →
        ({ errMessage := "boom", matched := none } : ErrorHandler).record.log = false) :=
  classify_range (JsError.strVal "boom") { errMessage := "boom", matched := none } (by rfl)

end TicketApp
